import Mathlib

/-!
Verification development for the height-and-weight-finder repository.

The embedded core is:
  * `src/utils/bmi.ts` — `calculateBMI` and `getBmiCategory`, pure metric
    derivation (JS numbers modelled as `Rat`; every constant in the source
    is exactly representable, and the claims under check are structural,
    not about floating-point rounding);
  * `src/services/geminiService.ts` — `analyzeImageForMetrics`: prompt
    construction, response validation, the failure-reason switch, the
    plausibility check, and the surrounding try/catch that decides which
    error messages reach the caller.

The oracle (Gemini) is opaque: its single round trip is modelled by an
`OracleOutcome` value (transport failure, unparseable body, or a parsed
JSON object), and the raw parsed object by optional JSON fields, since
`JSON.parse` gives no shape guarantee.
-/

/-- A JSON value as far as the service inspects one: `typeof` distinguishes
booleans, numbers and strings; `null` covers every other JSON value
(`typeof null = "object"`, arrays/objects likewise fail all three
`typeof` checks, so one constructor suffices for them). -/
inductive JsonValue where
  | bool (b : Bool)
  | num (x : Rat)
  | str (s : String)
  | null
deriving DecidableEq

/-- The parsed oracle response before any validation: each field the code
reads (`analysisSuccess`, `heightCm`, `weightKg`, `accuracy`, `reason`)
is either absent (`none`, JS `undefined`) or some JSON value of any type.
Mirrors the untyped data `JSON.parse` hands to `analyzeImageForMetrics`
(the TS annotation `GeminiAnalysisResponse` is not enforced at runtime). -/
structure RawResponse where
  analysisSuccess : Option JsonValue
  heightCm : Option JsonValue
  weightKg : Option JsonValue
  accuracy : Option JsonValue
  reason : Option JsonValue
deriving DecidableEq

/-- Typeof check `typeof v === "boolean"` on a possibly-absent field. -/
def isBooleanField : Option JsonValue → Bool
  | some (.bool _) => true
  | _ => false

/-- Typeof check `typeof v === "number"` on a possibly-absent field. -/
def isNumberField : Option JsonValue → Bool
  | some (.num _) => true
  | _ => false

/-- Typeof check `typeof v === "string"` on a possibly-absent field. -/
def isStringField : Option JsonValue → Bool
  | some (.str _) => true
  | _ => false

/-- The shape guard of geminiService.ts line 82: every required field
present with the required `typeof`. -/
def shapeOk (d : RawResponse) : Bool :=
  isBooleanField d.analysisSuccess && isNumberField d.heightCm &&
    isNumberField d.weightKg && isStringField d.accuracy

/-- The typed errors `analyzeImageForMetrics` can produce, one per distinct
`throw new Error(...)` site (the code distinguishes them only by message;
`errorMessage` below recovers the exact message strings). -/
inductive AnalysisError where
  | invalidResponseShape
  | noPersonDetected
  | childDetected
  | imageUnclear
  | unspecifiedAnalysisFailure
  | implausibleMetrics
  | oracleUnavailable
deriving DecidableEq

/-- The exact `Error` message of each throw site in geminiService.ts. -/
def errorMessage : AnalysisError → String
  | .invalidResponseShape =>
      "Invalid data types in API response."
  | .noPersonDetected =>
      "The AI couldn't find a person in the image. Please try a photo with a clear view of one adult."
  | .childDetected =>
      "This analysis is for adults only. The person in the image appears to be a child."
  | .imageUnclear =>
      "The image is too blurry or unclear for an accurate analysis. Please try a higher-quality photo."
  | .unspecifiedAnalysisFailure =>
      "The AI was unable to analyze this image. Please try a different one."
  | .implausibleMetrics =>
      "The AI returned invalid metric values. Please try a different image."
  | .oracleUnavailable =>
      "Failed to get a valid response from the AI model. Please check your connection and try again."

/-- The `switch (data.reason)` of geminiService.ts lines 87-96: strict
(`===`) comparison against the three recognised reason strings in order,
everything else (absent, other strings, non-strings) falling to the
default case. -/
def reasonToError (r : Option JsonValue) : AnalysisError :=
  match r with
  | some (.str s) =>
      if s = "no_person_detected" then .noPersonDetected
      else if s = "child_detected" then .childDetected
      else if s = "image_unclear" then .imageUnclear
      else .unspecifiedAnalysisFailure
  | _ => .unspecifiedAnalysisFailure

/-- The success payload `{ heightCm, weightKg, accuracy }` returned by
`analyzeImageForMetrics`. The accuracy field is whatever string the
response carried: the code checks only `typeof === "string"`. -/
structure AnalysisMetrics where
  heightCm : Rat
  weightKg : Rat
  accuracy : String
deriving DecidableEq

/-- The try-block body of `analyzeImageForMetrics` after `JSON.parse`
(geminiService.ts lines 82-107): shape guard first, then the
`analysisSuccess=false` reason switch, then the plausibility check
`heightCm <= 0 || weightKg <= 0`, else the pass-through success. -/
def validateResponse (data : RawResponse) : Except AnalysisError AnalysisMetrics :=
  match data.analysisSuccess, data.heightCm, data.weightKg, data.accuracy with
  | some (.bool success), some (.num h), some (.num w), some (.str acc) =>
      if success = false then
        .error (reasonToError data.reason)
      else if h ≤ 0 ∨ w ≤ 0 then
        .error .implausibleMetrics
      else
        .ok { heightCm := h, weightKg := w, accuracy := acc }
  | _, _, _, _ => .error .invalidResponseShape

/-- JS `msg.startsWith(pre)`: whether `pre` occurs at the very start of
`msg`, compared character by character. -/
def startsWithStr (msg pre : String) : Bool :=
  pre.data.isPrefixOf msg.data

/-- The rethrow filter of the catch block (geminiService.ts line 111): an
error propagates unchanged exactly when its message starts with "The AI"
or with "This analysis"; every other caught error is replaced. -/
def propagatesUnchanged (msg : String) : Bool :=
  startsWithStr msg "The AI" || startsWithStr msg "This analysis"

/-- The catch block of geminiService.ts lines 109-115 applied to an error
thrown inside the try block: rethrow it unchanged when its message passes
the prefix filter, otherwise throw the generic connectivity error
("Failed to get a valid response from the AI model. ..."). -/
def applyCatchFilter (e : AnalysisError) : AnalysisError :=
  if propagatesUnchanged (errorMessage e) then e else .oracleUnavailable

/-- One oracle round trip, as the service observes it: the
`generateContent` call throws (network/transport failure), or returns a
body `JSON.parse` rejects, or returns a body that parses to a JSON
object. -/
inductive OracleOutcome where
  | transportFailure
  | malformedBody
  | response (data : RawResponse)
deriving DecidableEq

/-- Full observable behaviour of `analyzeImageForMetrics` on one oracle
outcome. A transport error or a parse error is thrown by the SDK or by
`JSON.parse` with a message matching neither rethrow prefix, so the catch
block converts both to the connectivity error; an error thrown by the
validation code passes through `applyCatchFilter`; a success returns. -/
def analyzeImageForMetrics (outcome : OracleOutcome) : Except AnalysisError AnalysisMetrics :=
  match outcome with
  | .transportFailure => .error .oracleUnavailable
  | .malformedBody => .error .oracleUnavailable
  | .response data =>
      match validateResponse data with
      | .ok m => .ok m
      | .error e => .error (applyCatchFilter e)

/-- The oracle as a capability with a call counter: `behavior` gives the
outcome of the n-th call, `calls` counts the calls issued so far. No
other state exists in the service (it has no module-level mutable data
beyond the constant client). -/
structure OracleState where
  behavior : Nat → OracleOutcome
  calls : Nat

/-- One `await ai.models.generateContent(...)` call: consumes the next
outcome and bumps the counter. -/
def generateContent (st : OracleState) : OracleOutcome × OracleState :=
  (st.behavior st.calls, { st with calls := st.calls + 1 })

/-- The whole of `analyzeImageForMetrics` run against an instrumented
oracle: the body contains exactly one `generateContent` call (lines
70-77), no loop and no retry, and the rest of the function is pure
processing of that single outcome. -/
def analyzeRun (st : OracleState) : Except AnalysisError AnalysisMetrics × OracleState :=
  let r := generateContent st
  (analyzeImageForMetrics r.1, r.2)

/-- Instruction selected when `hasReference = true` (geminiService.ts
line 49), verbatim. -/
def highAccuracyInstruction : String :=
  "A standard A4 or Letter size paper IS present on the floor near the person's feet. You MUST use it as a precise scale to determine the person's height. Set 'accuracy' to 'high'."

/-- Instruction selected when `hasReference = false` (geminiService.ts
line 51), verbatim. -/
def mediumLowAccuracyInstruction : String :=
  "You must estimate the person's height and weight without a dedicated reference object. Act as a photogrammetry expert. Analyze the scene for common objects to establish scale. For example: a standard interior door is ~203 cm tall, a light switch is typically ~122 cm from the floor, and a standard chair seat is ~45 cm high. Use these environmental cues to create a plausible scale. If usable cues are present, set 'accuracy' to 'medium'. If no reference objects are found, make a rough estimate based on visual cues and general human proportions. In this case, set 'accuracy' to 'low'."

/-- Text of the prompt template before the interpolation point (lines
54-59 of geminiService.ts), verbatim. -/
def promptHeader : String :=
  "Your task is to estimate the height and weight of the person in the image. You MUST provide an estimate.\n\nFollow this process:\n1.  **Identify the person:** Find the adult person in the image. If no person is found, the image is unclear, or the person is a child, set 'analysisSuccess' to false and provide a reason.\n2.  **Estimate with scale:**\n    *   "

/-- Text of the prompt template after the interpolation point (lines
60-66 of geminiService.ts), verbatim. -/
def promptFooter : String :=
  "\n3.  **Provide the result:** Respond with the JSON object containing your estimates.\n\n**RULES:**\n- You MUST ALWAYS return a valid JSON object matching the schema.\n- 'analysisSuccess' should be 'true' as long as you can provide any estimate (high, medium, or low accuracy).\n- Only set 'analysisSuccess' to 'false' for the specific failure reasons: 'no_person_detected', 'child_detected', 'image_unclear'.\n- The absence of a reference object is NOT a failure condition if the user did not state one would be present."

/-- The instruction text `textPart.text` sent to the oracle, as a function
of the `hasReference` flag: the template literal with its single
interpolation `hasReference ? highAccuracyInstruction :
mediumLowAccuracyInstruction`. -/
def promptText (hasReference : Bool) : String :=
  promptHeader ++ (if hasReference then highAccuracyInstruction else mediumLowAccuracyInstruction) ++ promptFooter

/-- Occurrence of `pat` as a contiguous run inside `s` (character lists). -/
def occursIn (pat : List Char) : List Char → Bool
  | [] => pat.isEmpty
  | c :: tail => pat.isPrefixOf (c :: tail) || occursIn pat tail

/-- Occurrence of the phrase `pat` inside the string `s`. -/
def containsPhrase (s pat : String) : Bool :=
  occursIn pat.data s.data

/-- The BMI category enumeration of `src/types.ts` (`BmiCategoryInfo.category`). -/
inductive BmiCategory where
  | Underweight
  | NormalWeight
  | Overweight
  | Obese
deriving DecidableEq

/-- Display name of each category as the source writes it. -/
def BmiCategory.label : BmiCategory → String
  | .Underweight => "Underweight"
  | .NormalWeight => "Normal weight"
  | .Overweight => "Overweight"
  | .Obese => "Obese"

/-- The `BmiCategoryInfo` record of `src/types.ts`: a category with its
display color. -/
structure BmiCategoryInfo where
  category : BmiCategory
  color : String
deriving DecidableEq

/-- The `calculateBMI` function of `src/utils/bmi.ts`: 0 on any
non-positive input, else weight over squared height in metres. -/
def calculateBMI (heightCm weightKg : Rat) : Rat :=
  if heightCm ≤ 0 ∨ weightKg ≤ 0 then 0
  else
    let heightM := heightCm / 100
    weightKg / (heightM * heightM)

/-- The `getBmiCategory` function of `src/utils/bmi.ts`: piecewise
thresholding with the source's guards and colors, verbatim. -/
def getBmiCategory (bmi : Rat) : BmiCategoryInfo :=
  if bmi < 18.5 then { category := .Underweight, color := "#3b82f6" }
  else if 18.5 ≤ bmi ∧ bmi < 25 then { category := .NormalWeight, color := "#22c55e" }
  else if 25 ≤ bmi ∧ bmi < 30 then { category := .Overweight, color := "#f97316" }
  else { category := .Obese, color := "#ef4444" }

set_option maxRecDepth 100000

/-- Helper: the reason switch never produces the shape error, whatever the
reason field holds. -/
theorem reasonToError_ne_invalidShape (r : Option JsonValue) :
    reasonToError r ≠ AnalysisError.invalidResponseShape := by
  rcases r with _ | (b | x | s | _) <;> simp [reasonToError]
  split_ifs <;> simp

/-- C4: for every parsed oracle response, the validator throws
InvalidResponseShape exactly when some required field (analysisSuccess as
boolean, heightCm as number, weightKg as number, accuracy as string) is
missing or wrongly typed — in particular the shape check fires before the
reason switch and before the plausibility check, whatever the other
fields hold (first failing check wins). The catch block later surfaces
this internal error under the generic connectivity message, as §7 of the
spec records. -/
theorem validateResponse_shape_iff (d : RawResponse) :
    validateResponse d = .error .invalidResponseShape ↔ shapeOk d = false := by
  obtain ⟨a, hh, ww, ac, r⟩ := d
  rcases a with _ | (b | x | s | _) <;> rcases hh with _ | (b2 | x2 | s2 | _) <;>
    rcases ww with _ | (b3 | x3 | s3 | _) <;> rcases ac with _ | (b4 | x4 | s4 | _) <;>
    simp [validateResponse, shapeOk, isBooleanField, isNumberField, isStringField] <;>
    split_ifs <;>
    simp_all [reasonToError_ne_invalidShape]

/-- C2: on every well-typed response with analysisSuccess = false, the
validator's outcome is exactly the reason switch's error, independent of
the numeric fields: no_person_detected maps to NoPersonDetected,
child_detected to ChildDetected, image_unclear to ImageUnclear, and any
other or absent reason to UnspecifiedAnalysisFailure. -/
theorem analysisFailure_reason_mapping (h w : Rat) (acc : String) (r : Option JsonValue) :
    validateResponse { analysisSuccess := some (.bool false), heightCm := some (.num h),
                       weightKg := some (.num w), accuracy := some (.str acc), reason := r }
      = .error (reasonToError r) ∧
    (r = some (.str "no_person_detected") → reasonToError r = .noPersonDetected) ∧
    (r = some (.str "child_detected") → reasonToError r = .childDetected) ∧
    (r = some (.str "image_unclear") → reasonToError r = .imageUnclear) ∧
    (r ≠ some (.str "no_person_detected") → r ≠ some (.str "child_detected") →
      r ≠ some (.str "image_unclear") → reasonToError r = .unspecifiedAnalysisFailure) := by
  refine ⟨rfl, ?_, ?_, ?_, ?_⟩
  · rintro rfl; rfl
  · rintro rfl; rfl
  · rintro rfl; rfl
  · intro h1 h2 h3
    rcases r with _ | (b | x | s | _) <;> simp [reasonToError]
    simp only [ne_eq, Option.some.injEq, JsonValue.str.injEq] at h1 h2 h3
    simp [h1, h2, h3]

/-- Witness for C2: a failure response with reason no_person_detected and
nonzero metrics maps to NoPersonDetected, and an unrecognised reason
string maps to UnspecifiedAnalysisFailure. -/
theorem analysisFailure_reason_mapping_witness :
    validateResponse { analysisSuccess := some (.bool false), heightCm := some (.num 180),
                       weightKg := some (.num 80), accuracy := some (.str "high"),
                       reason := some (.str "no_person_detected") }
      = .error .noPersonDetected ∧
    reasonToError (some (.str "surprise")) = .unspecifiedAnalysisFailure := by
  constructor
  · have h := analysisFailure_reason_mapping 180 80 "high" (some (.str "no_person_detected"))
    rw [h.1, h.2.1 rfl]
  · exact (analysisFailure_reason_mapping 0 0 "x" (some (.str "surprise"))).2.2.2.2
      (by decide) (by decide) (by decide)

/-- Helper: a validator success always carries positive metrics. -/
theorem validateResponse_ok_pos (data : RawResponse) (m : AnalysisMetrics)
    (hok : validateResponse data = .ok m) : 0 < m.heightCm ∧ 0 < m.weightKg := by
  unfold validateResponse at hok
  split at hok
  · split_ifs at hok with h1 h2
    push_neg at h2
    injection hok with h3
    rw [← h3]
    exact ⟨h2.1, h2.2⟩
  · simp at hok

/-- Helper: on a well-typed successful response with positive metrics, the
whole function returns those values unchanged. -/
theorem analyze_ok_of_pos (h w : Rat) (acc : String) (r : Option JsonValue)
    (hh : 0 < h) (hw : 0 < w) :
    analyzeImageForMetrics (.response { analysisSuccess := some (.bool true), heightCm := some (.num h),
                                        weightKg := some (.num w), accuracy := some (.str acc), reason := r })
      = .ok { heightCm := h, weightKg := w, accuracy := acc } := by
  have hv : validateResponse { analysisSuccess := some (.bool true), heightCm := some (.num h),
                               weightKg := some (.num w), accuracy := some (.str acc), reason := r }
      = if h ≤ 0 ∨ w ≤ 0 then .error .implausibleMetrics else .ok ⟨h, w, acc⟩ := rfl
  unfold analyzeImageForMetrics
  dsimp only
  rw [hv, if_neg (by push_neg; exact ⟨hh, hw⟩)]

/-- C3: a well-typed response claiming success but carrying a non-positive
height or weight makes analyzeImageForMetrics fail with
ImplausibleMetrics (the error's message passes the catch filter
unchanged), and no outcome whatsoever yields a success with non-positive
height or weight. -/
theorem nonpositive_metrics_rejected (h w : Rat) (acc : String) (r : Option JsonValue) :
    (h ≤ 0 ∨ w ≤ 0 →
      analyzeImageForMetrics (.response { analysisSuccess := some (.bool true), heightCm := some (.num h),
                                          weightKg := some (.num w), accuracy := some (.str acc), reason := r })
        = .error .implausibleMetrics) ∧
    (∀ o m, analyzeImageForMetrics o = .ok m → 0 < m.heightCm ∧ 0 < m.weightKg) := by
  constructor
  · intro hle
    have hv : validateResponse { analysisSuccess := some (.bool true), heightCm := some (.num h),
                                 weightKg := some (.num w), accuracy := some (.str acc), reason := r }
        = if h ≤ 0 ∨ w ≤ 0 then .error .implausibleMetrics else .ok ⟨h, w, acc⟩ := rfl
    unfold analyzeImageForMetrics
    dsimp only
    rw [hv, if_pos hle]
    rfl
  · intro o m hok
    cases o with
    | transportFailure => simp [analyzeImageForMetrics] at hok
    | malformedBody => simp [analyzeImageForMetrics] at hok
    | response data =>
        have hv : validateResponse data = .ok m := by
          unfold analyzeImageForMetrics at hok
          dsimp only at hok
          split at hok
          · rename_i m2 heq
            injection hok with h3
            rw [heq, h3]
          · simp at hok
        exact validateResponse_ok_pos data m hv

/-- Witness for C3: the spec's own test vector, analysisSuccess true with
heightCm 0 and weightKg 50, fails with ImplausibleMetrics. -/
theorem nonpositive_metrics_rejected_witness :
    analyzeImageForMetrics (.response { analysisSuccess := some (.bool true), heightCm := some (.num 0),
                                        weightKg := some (.num 50), accuracy := some (.str "medium"), reason := none })
      = .error .implausibleMetrics :=
  (nonpositive_metrics_rejected 0 50 "medium" none).1 (Or.inl le_rfl)

/-- C5: a well-typed response with analysisSuccess true and positive
metrics returns a success whose heightCm, weightKg and accuracy are
exactly the response's values, unmodified. -/
theorem success_passthrough (h w : Rat) (acc : String) (r : Option JsonValue)
    (hh : 0 < h) (hw : 0 < w) :
    analyzeImageForMetrics (.response { analysisSuccess := some (.bool true), heightCm := some (.num h),
                                        weightKg := some (.num w), accuracy := some (.str acc), reason := r })
      = .ok { heightCm := h, weightKg := w, accuracy := acc } :=
  analyze_ok_of_pos h w acc r hh hw

/-- Witness for C5 at a concrete successful response. -/
theorem success_passthrough_witness :
    analyzeImageForMetrics (.response { analysisSuccess := some (.bool true), heightCm := some (.num 170),
                                        weightKg := some (.num 70), accuracy := some (.str "high"), reason := none })
      = .ok { heightCm := 170, weightKg := 70, accuracy := "high" } :=
  success_passthrough 170 70 "high" none (by norm_num) (by norm_num)

/-- C8: the validator checks only that accuracy is a string, never the
declared high/medium/low enumeration: any accuracy string whatsoever is
passed through verbatim into the success value. -/
theorem accuracy_enum_not_enforced (h w : Rat) (s : String) (r : Option JsonValue)
    (hh : 0 < h) (hw : 0 < w) :
    ∃ m, analyzeImageForMetrics (.response { analysisSuccess := some (.bool true), heightCm := some (.num h),
                                             weightKg := some (.num w), accuracy := some (.str s), reason := r })
        = .ok m ∧ m.accuracy = s :=
  ⟨{ heightCm := h, weightKg := w, accuracy := s }, analyze_ok_of_pos h w s r hh hw, rfl⟩

/-- Witness for C8: the out-of-enum accuracy string "unknown" is returned
verbatim. -/
theorem accuracy_enum_not_enforced_witness :
    ∃ m, analyzeImageForMetrics (.response { analysisSuccess := some (.bool true), heightCm := some (.num 160),
                                             weightKg := some (.num 60), accuracy := some (.str "unknown"), reason := none })
        = .ok m ∧ m.accuracy = "unknown" :=
  accuracy_enum_not_enforced 160 60 "unknown" none (by norm_num) (by norm_num)

/-- Helper: full characterisation of getBmiCategory's category by half-open
intervals inclusive on the lower bound. -/
theorem getBmiCategory_char (bmi : Rat) :
    ((getBmiCategory bmi).category = .Underweight ↔ bmi < 18.5) ∧
    ((getBmiCategory bmi).category = .NormalWeight ↔ 18.5 ≤ bmi ∧ bmi < 25) ∧
    ((getBmiCategory bmi).category = .Overweight ↔ 25 ≤ bmi ∧ bmi < 30) ∧
    ((getBmiCategory bmi).category = .Obese ↔ 30 ≤ bmi) := by
  unfold getBmiCategory
  split_ifs with h1 h2 h3
  · exact ⟨iff_of_true rfl h1,
      iff_of_false (by simp) (by rintro ⟨a, -⟩; linarith),
      iff_of_false (by simp) (by rintro ⟨a, -⟩; linarith),
      iff_of_false (by simp) (by intro a; linarith)⟩
  · exact ⟨iff_of_false (by simp) (by intro a; linarith [h2.1]),
      iff_of_true rfl h2,
      iff_of_false (by simp) (by rintro ⟨a, -⟩; linarith [h2.2]),
      iff_of_false (by simp) (by intro a; linarith [h2.2])⟩
  · exact ⟨iff_of_false (by simp) (by intro a; linarith [h3.1]),
      iff_of_false (by simp) (by rintro ⟨-, b⟩; linarith [h3.1]),
      iff_of_true rfl h3,
      iff_of_false (by simp) (by intro a; linarith [h3.2])⟩
  · push_neg at h1 h2 h3
    have hge : 30 ≤ bmi := h3 (h2 h1)
    exact ⟨iff_of_false (by simp) (by intro a; linarith),
      iff_of_false (by simp) (by rintro ⟨-, b⟩; linarith),
      iff_of_false (by simp) (by rintro ⟨-, b⟩; linarith),
      iff_of_true rfl hge⟩

/-- C6: getBmiCategory is total (a Lean function defined on every rational
bmi) and categorises by half-open intervals inclusive on the lower bound:
below 18.5 Underweight, 18.5 up to 25 Normal weight, 25 up to 30
Overweight, 30 and above Obese; in particular 0 is Underweight and the
boundaries 18.5, 25 and 30 fall in the higher category. -/
theorem getBmiCategory_intervals (bmi : Rat) :
    ((getBmiCategory bmi).category = .Underweight ↔ bmi < 18.5) ∧
    ((getBmiCategory bmi).category = .NormalWeight ↔ 18.5 ≤ bmi ∧ bmi < 25) ∧
    ((getBmiCategory bmi).category = .Overweight ↔ 25 ≤ bmi ∧ bmi < 30) ∧
    ((getBmiCategory bmi).category = .Obese ↔ 30 ≤ bmi) ∧
    (getBmiCategory 0).category = .Underweight ∧
    (getBmiCategory 18.5).category = .NormalWeight ∧
    (getBmiCategory 25).category = .Overweight ∧
    (getBmiCategory 30).category = .Obese := by
  obtain ⟨u, n, o, ob⟩ := getBmiCategory_char bmi
  refine ⟨u, n, o, ob, ?_, ?_, ?_, ?_⟩
  · exact (getBmiCategory_char 0).1.mpr (by norm_num)
  · exact (getBmiCategory_char 18.5).2.1.mpr (by norm_num)
  · exact (getBmiCategory_char 25).2.2.1.mpr (by norm_num)
  · exact (getBmiCategory_char 30).2.2.2.mpr (by norm_num)

/-- C7: calculateBMI returns 0 whenever either input is non-positive, and
weightKg divided by the square of heightCm/100 on positive inputs; it is
a pure total function. -/
theorem calculateBMI_spec (h w : Rat) :
    (h ≤ 0 ∨ w ≤ 0 → calculateBMI h w = 0) ∧
    (0 < h → 0 < w → calculateBMI h w = w / (h / 100) ^ 2) := by
  constructor
  · intro hle
    unfold calculateBMI
    rw [if_pos hle]
  · intro hh hw
    unfold calculateBMI
    rw [if_neg (by push_neg; exact ⟨hh, hw⟩)]
    rw [pow_two]

/-- Witness for C7 at zero height and at 200cm / 80kg. -/
theorem calculateBMI_spec_witness :
    calculateBMI 0 50 = 0 ∧ calculateBMI 200 80 = 80 / (200 / 100) ^ 2 :=
  ⟨(calculateBMI_spec 0 50).1 (Or.inl le_rfl),
   (calculateBMI_spec 200 80).2 (by norm_num) (by norm_num)⟩

/-- C9: the instruction text is a function of the hasReference flag alone,
with different text per flag value; the true branch states the reference
paper is present and must be used as a precise scale with accuracy high;
the false branch instructs estimation from environmental cues for
accuracy medium, falling back to a rough proportion-based estimate for
accuracy low; and both branches state that a missing reference object is
not a failure condition and name the only three failure reasons. -/
theorem promptText_policy :
    promptText true ≠ promptText false ∧
    containsPhrase (promptText true) "A standard A4 or Letter size paper IS present" = true ∧
    containsPhrase (promptText true) "You MUST use it as a precise scale" = true ∧
    containsPhrase (promptText true) "Set 'accuracy' to 'high'." = true ∧
    containsPhrase (promptText false) "Analyze the scene for common objects to establish scale" = true ∧
    containsPhrase (promptText false) "If usable cues are present, set 'accuracy' to 'medium'." = true ∧
    containsPhrase (promptText false) "make a rough estimate based on visual cues and general human proportions" = true ∧
    containsPhrase (promptText false) "In this case, set 'accuracy' to 'low'." = true ∧
    (∀ b : Bool, containsPhrase (promptText b) "The absence of a reference object is NOT a failure condition" = true) ∧
    (∀ b : Bool, containsPhrase (promptText b)
        "Only set 'analysisSuccess' to 'false' for the specific failure reasons: 'no_person_detected', 'child_detected', 'image_unclear'." = true) :=
  ⟨by decide, rfl, rfl, rfl, rfl, rfl, rfl, rfl,
   fun b => by cases b <;> rfl, fun b => by cases b <;> rfl⟩

/-- C10: one run of analyzeImageForMetrics issues exactly one oracle call
— the call counter advances by exactly one, the oracle's behaviour is
untouched, and the returned outcome is the processing of that single
call's result, for every oracle behaviour (success, semantic failure or
transport failure alike). -/
theorem analyze_calls_oracle_exactly_once (st : OracleState) :
    (analyzeRun st).2.calls = st.calls + 1 ∧
    (analyzeRun st).2.behavior = st.behavior ∧
    (analyzeRun st).1 = analyzeImageForMetrics (st.behavior st.calls) :=
  ⟨rfl, rfl, rfl⟩

/-- A well-typed failure response whose reason is image_unclear. -/
def imageUnclearResponse : RawResponse :=
  { analysisSuccess := some (.bool false), heightCm := some (.num 0),
    weightKg := some (.num 0), accuracy := some (.str "low"),
    reason := some (.str "image_unclear") }

/-- C1 (code bug): the switch does throw the dedicated ImageUnclear error
("The image is too blurry or unclear..."), but that message matches
neither rethrow prefix of the catch block ("The AI", "This analysis"),
so the catch block swallows it and the caller receives the generic
connectivity error instead — the ImageUnclear outcome never propagates
to the caller, contrary to the spec's propagation policy and to the
evident intent of the dedicated message. -/
theorem imageUnclear_masked_to_connectivity :
    validateResponse imageUnclearResponse = .error .imageUnclear ∧
    propagatesUnchanged (errorMessage .imageUnclear) = false ∧
    analyzeImageForMetrics (.response imageUnclearResponse) = .error .oracleUnavailable ∧
    AnalysisError.imageUnclear ≠ AnalysisError.oracleUnavailable :=
  ⟨rfl, rfl, rfl, by decide⟩
